import Mathlib

/-!
Verification of the client-side session-management layer of the
E-Shop admin dashboard (AuthService, the axios interceptors, and the
AuthContext provider).

The embedding models:
  * the three cookie-backed storage cells (`admin_token`,
    `admin_refresh_token`, `admin_user`) as a `Store` record of
    `Option` values;
  * the JSON serialization used by `setUser` / `getUser` as an explicit
    JSON tree (`Json`) together with `encodeUser` / `decodeUser`;
    cookie text that the JSON parser rejects (the `catch` branch of
    `getUser`) is the `UserCell.corrupt` constructor;
  * each backend call as a parameter of type `ApiResult α` (the
    outcome of the HTTP request), threaded through `runApi`, which runs
    the axios response interceptor on error outcomes exactly as
    `api.interceptors.response` does;
  * navigation (`window.location.href`, `router.push`) as a
    `location` field of the client state.

All operations are state-passing translations of the TypeScript source
bundled in the repository (the `AuthService` class and axios setup, and
`src/contexts/AuthContext.tsx`).
-/

set_option autoImplicit false

/-- JSON value trees, restricted to the constructors that the
serialized `AdminUser` record can contain (all its fields are strings,
booleans, or a nested object). Models the value produced by
`JSON.parse` / consumed by `JSON.stringify`. -/
inductive Json where
  | null : Json
  | bool (b : Bool) : Json
  | str (s : String) : Json
  | obj (fields : List (String × Json)) : Json
deriving Repr, Inhabited

/-- The optional nested `address` object of `AdminUser`
(`src` interface `AdminUser`, field `address`). -/
structure Address where
  street : Option String
  city : Option String
  state : Option String
  country : Option String
  zipCode : Option String
deriving Repr, DecidableEq

/-- The `AdminUser` interface of the source: the authenticated
principal snapshot stored in the `admin_user` cookie. -/
structure AdminUser where
  id : String
  email : String
  firstName : String
  lastName : String
  role : String
  isEmailVerified : Bool
  isPhoneVerified : Bool
  isActive : Bool
  phone : Option String
  dateOfBirth : Option String
  gender : Option String
  profilePicture : Option String
  address : Option Address
  createdAt : String
  updatedAt : String
  lastLogin : Option String
deriving Repr, DecidableEq

/-- Encode an optional string field the way `JSON.stringify` does:
fields holding `undefined` are omitted from the object. -/
def optStrField (key : String) : Option String → List (String × Json)
  | some s => [(key, Json.str s)]
  | none => []

/-- `JSON.stringify` of the nested address object. -/
def encodeAddress (a : Address) : Json :=
  Json.obj
    (optStrField "street" a.street ++ optStrField "city" a.city ++
      optStrField "state" a.state ++ optStrField "country" a.country ++
      optStrField "zipCode" a.zipCode)

/-- Encode the optional nested `address` field; omitted when the field
holds `undefined`, like every other optional field. -/
def addrField : Option Address → List (String × Json)
  | some a => [("address", encodeAddress a)]
  | none => []

/-- `JSON.stringify` of an `AdminUser`, at the JSON-tree level. -/
def encodeUser (u : AdminUser) : Json :=
  Json.obj
    ([("id", Json.str u.id), ("email", Json.str u.email),
      ("firstName", Json.str u.firstName), ("lastName", Json.str u.lastName),
      ("role", Json.str u.role),
      ("isEmailVerified", Json.bool u.isEmailVerified),
      ("isPhoneVerified", Json.bool u.isPhoneVerified),
      ("isActive", Json.bool u.isActive)] ++
      optStrField "phone" u.phone ++
      optStrField "dateOfBirth" u.dateOfBirth ++
      optStrField "gender" u.gender ++
      optStrField "profilePicture" u.profilePicture ++
      addrField u.address ++
      [("createdAt", Json.str u.createdAt), ("updatedAt", Json.str u.updatedAt)] ++
      optStrField "lastLogin" u.lastLogin)

/-- First-match field lookup in a JSON object field list (JS property
access on the parsed object). -/
def lookupField (key : String) : List (String × Json) → Option Json
  | [] => none
  | (k, v) :: rest => if key = k then some v else lookupField key rest

/-- Field lookup in a JSON object value. -/
def Json.get (j : Json) (key : String) : Option Json :=
  match j with
  | Json.obj fields => lookupField key fields
  | _ => none

/-- The string carried by a JSON string value. -/
def Json.asStr : Json → Option String
  | Json.str s => some s
  | _ => none

/-- The boolean carried by a JSON boolean value. -/
def Json.asBool : Json → Option Bool
  | Json.bool b => some b
  | _ => none

/-- Read a required string field. -/
def Json.getStr (j : Json) (key : String) : Option String :=
  (j.get key).bind Json.asStr

/-- Read a required boolean field. -/
def Json.getBool (j : Json) (key : String) : Option Bool :=
  (j.get key).bind Json.asBool

/-- Read an optional string field: an absent key is `none`-valued, a
present key must hold a string. -/
def Json.getOptStr (j : Json) (key : String) : Option (Option String) :=
  (j.get key).elim (some none) (fun v => v.asStr.map some)

/-- Decode the nested address object. -/
def decodeAddress (j : Json) : Option Address :=
  match j with
  | Json.obj _ => do
      let street ← j.getOptStr "street"
      let city ← j.getOptStr "city"
      let state ← j.getOptStr "state"
      let country ← j.getOptStr "country"
      let zipCode ← j.getOptStr "zipCode"
      pure { street := street, city := city, state := state,
             country := country, zipCode := zipCode }
  | _ => none

/-- Read the optional nested address field: an absent key is
`none`-valued, a present key must decode as an address object. -/
def Json.getOptAddress (j : Json) (key : String) : Option (Option Address) :=
  (j.get key).elim (some none) (fun v => (decodeAddress v).map some)

/-- Decode an `AdminUser` from its JSON tree. Models the typed reading
of the value returned by `JSON.parse` in `getUser`; a tree that does
not have the shape of a serialized user yields `none`. -/
def decodeUser (j : Json) : Option AdminUser :=
  match j with
  | Json.obj _ => do
      let id ← j.getStr "id"
      let email ← j.getStr "email"
      let firstName ← j.getStr "firstName"
      let lastName ← j.getStr "lastName"
      let role ← j.getStr "role"
      let isEmailVerified ← j.getBool "isEmailVerified"
      let isPhoneVerified ← j.getBool "isPhoneVerified"
      let isActive ← j.getBool "isActive"
      let phone ← j.getOptStr "phone"
      let dateOfBirth ← j.getOptStr "dateOfBirth"
      let gender ← j.getOptStr "gender"
      let profilePicture ← j.getOptStr "profilePicture"
      let address ← j.getOptAddress "address"
      let createdAt ← j.getStr "createdAt"
      let updatedAt ← j.getStr "updatedAt"
      let lastLogin ← j.getOptStr "lastLogin"
      pure { id := id, email := email, firstName := firstName,
             lastName := lastName, role := role,
             isEmailVerified := isEmailVerified,
             isPhoneVerified := isPhoneVerified, isActive := isActive,
             phone := phone, dateOfBirth := dateOfBirth, gender := gender,
             profilePicture := profilePicture, address := address,
             createdAt := createdAt, updatedAt := updatedAt,
             lastLogin := lastLogin }
  | _ => none

theorem lookupField_nil (key : String) : lookupField key [] = none := rfl

theorem lookupField_cons (key k : String) (v : Json) (rest : List (String × Json)) :
    lookupField key ((k, v) :: rest) =
      if key = k then some v else lookupField key rest := rfl

theorem lookupField_optStrField_ne (key k : String) (v : Option String)
    (rest : List (String × Json)) (h : ¬ key = k) :
    lookupField key (optStrField k v ++ rest) = lookupField key rest := by
  cases v <;> simp [optStrField, lookupField_cons, h]

theorem lookupField_optStrField_last_ne (key k : String) (v : Option String)
    (h : ¬ key = k) :
    lookupField key (optStrField k v) = none := by
  cases v <;> simp [optStrField, lookupField_cons, lookupField, h]

theorem lookupField_addrField_ne (key : String) (v : Option Address)
    (rest : List (String × Json)) (h : ¬ key = "address") :
    lookupField key (addrField v ++ rest) = lookupField key rest := by
  cases v <;> simp [addrField, lookupField_cons, h]

theorem lookupField_optStrField_self (key : String) (v : Option String)
    (rest : List (String × Json)) (h : lookupField key rest = none) :
    lookupField key (optStrField key v ++ rest) = v.map Json.str := by
  cases v <;> simp [optStrField, lookupField_cons, h]

theorem lookupField_optStrField_last_self (key : String) (v : Option String) :
    lookupField key (optStrField key v) = v.map Json.str := by
  cases v <;> simp [optStrField, lookupField_cons, lookupField]

theorem lookupField_addrField_self (v : Option Address)
    (rest : List (String × Json)) (h : lookupField "address" rest = none) :
    lookupField "address" (addrField v ++ rest) = v.map encodeAddress := by
  cases v <;> simp [addrField, lookupField_cons, h]

theorem Option.elim_map_eq {α β γ : Type} (f : α → β) (o : Option α) (z : γ)
    (g : β → γ) : (o.map f).elim z g = o.elim z (fun a => g (f a)) := by
  cases o <;> rfl

theorem Option.elim_some_some {α : Type} (o : Option α) :
    o.elim (some none) (fun a => some (some a)) = some o := by
  cases o <;> rfl

/-- Decoding inverts encoding on address objects. -/
theorem decodeAddress_encodeAddress (a : Address) :
    decodeAddress (encodeAddress a) = some a := by
  obtain ⟨s1, s2, s3, s4, s5⟩ := a
  simp [decodeAddress, encodeAddress, Json.get, Json.getOptStr, Json.asStr,
    lookupField_optStrField_self, lookupField_optStrField_ne,
    lookupField_optStrField_last_self, lookupField_optStrField_last_ne,
    Option.elim_map_eq, Option.elim_some_some]

/-- Decoding inverts encoding on user records: the JSON round-trip of
`setUser` / `getUser` is lossless. -/
theorem decodeUser_encodeUser (u : AdminUser) :
    decodeUser (encodeUser u) = some u := by
  obtain ⟨id, email, fn, ln, role, b1, b2, b3, ph, dob, g, pp, addr, ca, ua, ll⟩ := u
  simp [decodeUser, encodeUser, Json.get, Json.getStr, Json.getBool,
    Json.getOptStr, Json.getOptAddress, Json.asStr, Json.asBool,
    lookupField_cons, lookupField_nil,
    lookupField_optStrField_self, lookupField_optStrField_ne,
    lookupField_optStrField_last_self, lookupField_optStrField_last_ne,
    lookupField_addrField_self, lookupField_addrField_ne,
    Option.elim_map_eq, Option.elim_some_some, decodeAddress_encodeAddress]

/-! ## The Token Store

Three cookie cells: `admin_token`, `admin_refresh_token`, `admin_user`.
The user cell holds cookie text: either text the JSON parser accepts
(kept as its parse tree) or text it rejects. -/

/-- Content of the `admin_user` cookie. `valid j` is cookie text that
`JSON.parse` accepts with parse tree `j`; `corrupt s` is cookie text
that `JSON.parse` rejects (the `catch` branch of `getUser`). -/
inductive UserCell where
  | valid (j : Json) : UserCell
  | corrupt (s : String) : UserCell
deriving Repr

/-- The three cookie-backed cells of the session store. -/
structure Store where
  token : Option String
  refreshToken : Option String
  user : Option UserCell
deriving Repr

namespace AuthService

/-- `setToken`: `Cookies.set(TOKEN_KEY, token, ...)`. -/
def setToken (t : String) (s : Store) : Store :=
  { s with token := some t }

/-- `getToken`: `Cookies.get(TOKEN_KEY) || null`. A stored empty
string is falsy in JS, so it reads back as `null`. -/
def getToken (s : Store) : Option String :=
  match s.token with
  | some t => if t = "" then none else some t
  | none => none

/-- `setRefreshToken`: `Cookies.set(REFRESH_TOKEN_KEY, ...)`. -/
def setRefreshToken (t : String) (s : Store) : Store :=
  { s with refreshToken := some t }

/-- `getRefreshToken`: `Cookies.get(REFRESH_TOKEN_KEY) || null`. -/
def getRefreshToken (s : Store) : Option String :=
  match s.refreshToken with
  | some t => if t = "" then none else some t
  | none => none

/-- `setUser`: `Cookies.set(USER_KEY, JSON.stringify(user), ...)`. -/
def setUser (u : AdminUser) (s : Store) : Store :=
  { s with user := some (UserCell.valid (encodeUser u)) }

/-- `getUser`: reads the cookie; absent or falsy text gives `null`;
text rejected by `JSON.parse` gives `null` through the `catch` branch;
accepted text is returned as the user record (the unchecked TypeScript
cast of the parsed value is modelled by `decodeUser`). -/
def getUser (s : Store) : Option AdminUser :=
  match s.user with
  | none => none
  | some (UserCell.corrupt _) => none
  | some (UserCell.valid j) => decodeUser j

/-- `clearAuth`: `Cookies.remove` on all three keys. -/
def clearAuth (_s : Store) : Store :=
  { token := none, refreshToken := none, user := none }

/-- `isAuthenticated`: `!!(this.getToken() && this.getUser())`. -/
def isAuthenticated (s : Store) : Bool :=
  (getToken s).isSome && (getUser s).isSome

/-- `isAdmin`: `this.getUser()?.role === 'admin'`. -/
def isAdmin (s : Store) : Bool :=
  match getUser s with
  | some u => u.role == "admin"
  | none => false

end AuthService

/-! ## The API Gateway Client

Each HTTP request is modelled by its outcome, a parameter of type
`ApiResult α` where `α` is the payload the caller reads from a
successful response body. Error outcomes carry what the axios error
object exposes: `error.response?.status` and
`error.response?.data?.error`. -/

/-- The parts of an axios error the source consults. `status = none`
models a transport failure with no HTTP response at all. -/
structure ApiError where
  status : Option Nat
  errMsg : Option String
deriving Repr, DecidableEq

/-- Outcome of a backend HTTP request. -/
inductive ApiResult (α : Type) where
  | ok (val : α) : ApiResult α
  | err (e : ApiError) : ApiResult α
deriving Repr

/-- Client-visible state: the cookie store plus the navigation target
of the last `window.location.href` / `router.push`, if any. -/
structure ClientState where
  store : Store
  location : Option String
deriving Repr

/-- The axios response interceptor: on a 401 status it removes the
`admin_token` and `admin_user` cookies (not the refresh token) and
navigates to `/auth/login`; any other error passes through untouched. -/
def responseInterceptor (st : ClientState) (e : ApiError) : ClientState :=
  if e.status = some 401 then
    { store := { st.store with token := none, user := none },
      location := some "/auth/login" }
  else st

/-- Run one request through the axios instance: a successful response
reaches the caller unchanged; an error response first passes through
`responseInterceptor` (mutating the client state) and is then rejected
to the caller. -/
def runApi {α : Type} (st : ClientState) (r : ApiResult α) :
    ClientState × Except ApiError α :=
  match r with
  | ApiResult.ok v => (st, Except.ok v)
  | ApiResult.err e => (responseInterceptor st e, Except.error e)

/-- The `data` object of a successful auth response body. -/
structure AuthData where
  user : AdminUser
  token : String
  refreshToken : String
deriving Repr

/-- A successful auth response body (`AuthResponse` in the source). -/
structure AuthResponse where
  success : Bool
  message : String
  data : AuthData
deriving Repr

/-- A `{success, message}` acknowledgment body. -/
structure AckData where
  success : Bool
  message : String
deriving Repr, DecidableEq

namespace AuthService

/-- `login`: posts credentials; on success stores token, refresh token
and user (in that order) and returns the full response body; on error
throws `error.response?.data?.error || 'Login failed'`. -/
def login (st : ClientState) (resp : ApiResult AuthResponse) :
    ClientState × Except String AuthResponse :=
  match runApi st resp with
  | (st1, Except.ok r) =>
      let s2 := setUser r.data.user
        (setRefreshToken r.data.refreshToken (setToken r.data.token st1.store))
      ({ st1 with store := s2 }, Except.ok r)
  | (st1, Except.error e) =>
      (st1, Except.error (e.errMsg.getD "Login failed"))

/-- `register`: posts the registration fields with `role` forced to
`admin` in the request body; the stored user is whatever the backend
returns. Fallback message `Registration failed`. -/
def register (st : ClientState) (resp : ApiResult AuthResponse) :
    ClientState × Except String AuthResponse :=
  match runApi st resp with
  | (st1, Except.ok r) =>
      let s2 := setUser r.data.user
        (setRefreshToken r.data.refreshToken (setToken r.data.token st1.store))
      ({ st1 with store := s2 }, Except.ok r)
  | (st1, Except.error e) =>
      (st1, Except.error (e.errMsg.getD "Registration failed"))

/-- `logout`: posts `/auth/logout`; a backend failure is only logged
(`console.error`) and swallowed, and `clearAuth` runs in the `finally`
block either way. The operation never throws, hence no `Except` in the
result type. -/
def logout (st : ClientState) (resp : ApiResult Unit) : ClientState :=
  let st1 := (runApi st resp).1
  { st1 with store := clearAuth st1.store }

/-- `forgotPassword`: posts the email; fallback message
`Failed to send reset email`. -/
def forgotPassword (st : ClientState) (resp : ApiResult AckData) :
    ClientState × Except String AckData :=
  match runApi st resp with
  | (st1, Except.ok r) => (st1, Except.ok r)
  | (st1, Except.error e) =>
      (st1, Except.error (e.errMsg.getD "Failed to send reset email"))

/-- `resetPassword`: posts token and new password; fallback message
`Failed to reset password`. -/
def resetPassword (st : ClientState) (resp : ApiResult AckData) :
    ClientState × Except String AckData :=
  match runApi st resp with
  | (st1, Except.ok r) => (st1, Except.ok r)
  | (st1, Except.error e) =>
      (st1, Except.error (e.errMsg.getD "Failed to reset password"))

/-- `refreshToken` (the operation): if no refresh token is stored, the
thrown error is caught by the same `catch`, which clears all auth data
and throws the generic `Token refresh failed`; otherwise the request
runs, and on success only the access token is overwritten, while on
failure the `catch` again clears everything. -/
def refreshToken (st : ClientState) (resp : ApiResult String) :
    ClientState × Except String String :=
  match getRefreshToken st.store with
  | none =>
      ({ st with store := clearAuth st.store },
        Except.error "Token refresh failed")
  | some _ =>
      match runApi st resp with
      | (st1, Except.ok tok) =>
          ({ st1 with store := setToken tok st1.store }, Except.ok tok)
      | (st1, Except.error _) =>
          ({ st1 with store := clearAuth st1.store },
            Except.error "Token refresh failed")

/-- `getCurrentUser`: fetches `/users/profile` (the `ok` payload is
`response.data.data`); on success overwrites only the stored user;
fallback message `Failed to get user profile`. -/
def getCurrentUser (st : ClientState) (resp : ApiResult AdminUser) :
    ClientState × Except String AdminUser :=
  match runApi st resp with
  | (st1, Except.ok u) =>
      ({ st1 with store := setUser u st1.store }, Except.ok u)
  | (st1, Except.error e) =>
      (st1, Except.error (e.errMsg.getD "Failed to get user profile"))

/-- `updateProfile`: puts the partial user record `body` to
`/users/profile`; on success overwrites only the stored user with the
backend-returned record; fallback message `Failed to update profile`. -/
def updateProfile (st : ClientState) (_body : Json) (resp : ApiResult AdminUser) :
    ClientState × Except String AdminUser :=
  match runApi st resp with
  | (st1, Except.ok u) =>
      ({ st1 with store := setUser u st1.store }, Except.ok u)
  | (st1, Except.error e) =>
      (st1, Except.error (e.errMsg.getD "Failed to update profile"))

end AuthService

/-! ## The Session Context (AuthContext provider)

React state of the provider: the current user, the loading flag and
the latest-error slot, alongside the client state (cookies and
navigation). Each operation is the corresponding handler of
`AuthContext.tsx`, with one `ApiResult` parameter per backend request
it can issue. -/

/-- The reactive state held by the `AuthProvider`. -/
structure CtxState where
  client : ClientState
  user : Option AdminUser
  isLoading : Bool
  error : Option String
deriving Repr

namespace AuthContext

/-- `initAuth` (the mount effect): if `isAuthenticated()`, adopt the
cached user, then revalidate through `getCurrentUser()`; on success
adopt the fresh user, on failure `clearAuth()` and drop the user. The
loading flag is set for the duration and cleared in `finally`. -/
def initAuth (st : CtxState) (profileResp : ApiResult AdminUser) : CtxState :=
  let st0 := { st with isLoading := true }
  let st1 :=
    if AuthService.isAuthenticated st0.client.store then
      match AuthService.getUser st0.client.store with
      | some currentUser =>
          let stA := { st0 with user := some currentUser }
          match AuthService.getCurrentUser stA.client profileResp with
          | (cl, Except.ok freshUser) =>
              { stA with client := cl, user := some freshUser }
          | (cl, Except.error _) =>
              { stA with
                  client := { cl with store := AuthService.clearAuth cl.store },
                  user := none }
      | none => st0
    else st0
  { st1 with isLoading := false }

/-- The `login` handler: clears the error slot, calls
`authService.login`; if the returned user is not an admin it calls
`authService.logout()` (a second backend request, outcome
`logoutResp`) and throws the access-denied error; otherwise it adopts
the user and navigates to `/dashboard`. Every thrown error is recorded
in the error slot and re-raised. -/
def login (st : CtxState) (loginResp : ApiResult AuthResponse)
    (logoutResp : ApiResult Unit) : CtxState × Except String Unit :=
  let st0 := { st with isLoading := true, error := none }
  match AuthService.login st0.client loginResp with
  | (cl, Except.ok r) =>
      if r.data.user.role = "admin" then
        ({ st0 with
            client := { cl with location := some "/dashboard" },
            user := some r.data.user, isLoading := false },
          Except.ok ())
      else
        let cl2 := AuthService.logout cl logoutResp
        let msg := "Access denied. Admin privileges required."
        ({ st0 with client := cl2, error := some msg, isLoading := false },
          Except.error msg)
  | (cl, Except.error msg) =>
      ({ st0 with client := cl, error := some msg, isLoading := false },
        Except.error msg)

/-- The `register` handler: clears the error slot, calls
`authService.register`, adopts the returned user with no role check,
and navigates to `/dashboard`. Errors are recorded and re-raised. -/
def register (st : CtxState) (resp : ApiResult AuthResponse) :
    CtxState × Except String Unit :=
  let st0 := { st with isLoading := true, error := none }
  match AuthService.register st0.client resp with
  | (cl, Except.ok r) =>
      ({ st0 with
          client := { cl with location := some "/dashboard" },
          user := some r.data.user, isLoading := false },
        Except.ok ())
  | (cl, Except.error msg) =>
      ({ st0 with client := cl, error := some msg, isLoading := false },
        Except.error msg)

/-- The `logout` handler: calls `authService.logout` (which never
throws), drops the user and navigates to `/auth/login`. -/
def logout (st : CtxState) (resp : ApiResult Unit) : CtxState :=
  let st0 := { st with isLoading := true }
  let cl := AuthService.logout st0.client resp
  { st0 with
      client := { cl with location := some "/auth/login" },
      user := none, isLoading := false }

/-- The `updateProfile` handler: clears the error slot, calls
`authService.updateProfile`, adopts the updated user on success;
errors are recorded and re-raised. -/
def updateProfile (st : CtxState) (body : Json) (resp : ApiResult AdminUser) :
    CtxState × Except String Unit :=
  let st0 := { st with error := none }
  match AuthService.updateProfile st0.client body resp with
  | (cl, Except.ok u) =>
      ({ st0 with client := cl, user := some u }, Except.ok ())
  | (cl, Except.error msg) =>
      ({ st0 with client := cl, error := some msg }, Except.error msg)

end AuthContext

/-! ## Concrete sample values used by witnesses and counterexamples -/

/-- A well-formed non-admin user record. -/
def sampleUser : AdminUser :=
  { id := "u1", email := "user@shop.example", firstName := "Alice",
    lastName := "Doe", role := "user", isEmailVerified := true,
    isPhoneVerified := false, isActive := true, phone := none,
    dateOfBirth := none, gender := none, profilePicture := none,
    address := none, createdAt := "2024-01-01", updatedAt := "2024-01-02",
    lastLogin := none }

/-- The same record with the admin role. -/
def sampleAdmin : AdminUser := { sampleUser with role := "admin" }

/-- A successful auth response carrying the non-admin user. -/
def sampleAuth : AuthResponse :=
  { success := true, message := "ok",
    data := { user := sampleUser, token := "tok1", refreshToken := "rtok1" } }

/-- Client state with empty cookie store and no navigation yet. -/
def emptyClient : ClientState :=
  { store := { token := none, refreshToken := none, user := none },
    location := none }

/-- Provider state over the empty client. -/
def ctx0 : CtxState :=
  { client := emptyClient, user := none, isLoading := false, error := none }

/-- A fully-populated store holding the admin user. -/
def seededStore : Store :=
  { token := some "tok0", refreshToken := some "rtok0",
    user := some (UserCell.valid (encodeUser sampleAdmin)) }

/-- Client state over the seeded store. -/
def seededClient : ClientState := { store := seededStore, location := none }

/-- Provider state over the seeded client, as at mount time. -/
def seededCtx : CtxState :=
  { client := seededClient, user := none, isLoading := true, error := none }

/-- A fully-populated store holding the non-admin user. -/
def nonAdminStore : Store :=
  { token := some "tok0", refreshToken := some "rtok0",
    user := some (UserCell.valid (encodeUser sampleUser)) }

/-- Provider state over the non-admin store, as at mount time. -/
def nonAdminCtx : CtxState :=
  { client := { store := nonAdminStore, location := none }, user := none,
    isLoading := true, error := none }

/-- A 401 error response. -/
def e401 : ApiError := { status := some 401, errMsg := some "Unauthorized" }

/-- A 500 error response with a structured message. -/
def e500 : ApiError := { status := some 500, errMsg := some "boom" }

/-- A store holding the admin user but no access token. -/
def adminOnlyStore : Store :=
  { token := none, refreshToken := none,
    user := some (UserCell.valid (encodeUser sampleAdmin)) }

/-! ## Claim theorems -/

/-- C1: for every login whose backend response succeeds but carries a
user whose role is not `admin`, the context login handler ends with
the token store fully cleared (access token, refresh token and user
all removed), `isAuthenticated()` returning false, and the operation
failing with the access-denied error. -/
theorem login_nonAdmin_clears_and_denies
    (st : CtxState) (r : AuthResponse) (logoutResp : ApiResult Unit)
    (h : r.data.user.role ≠ "admin") :
    (AuthContext.login st (ApiResult.ok r) logoutResp).1.client.store.token
        = none ∧
    (AuthContext.login st (ApiResult.ok r) logoutResp).1.client.store.refreshToken
        = none ∧
    (AuthContext.login st (ApiResult.ok r) logoutResp).1.client.store.user
        = none ∧
    AuthService.isAuthenticated
        (AuthContext.login st (ApiResult.ok r) logoutResp).1.client.store
        = false ∧
    (AuthContext.login st (ApiResult.ok r) logoutResp).2
        = Except.error "Access denied. Admin privileges required." := by
  simp [AuthContext.login, AuthService.login, AuthService.logout, runApi,
    AuthService.clearAuth, AuthService.setUser, AuthService.setRefreshToken,
    AuthService.setToken, AuthService.isAuthenticated, AuthService.getToken,
    AuthService.getUser, h]

/-- Witness for C1: a concrete non-admin login against the empty
state, with the inner logout request succeeding. -/
theorem login_nonAdmin_clears_and_denies_witness :
    sampleAuth.data.user.role ≠ "admin" ∧
    (AuthContext.login ctx0 (ApiResult.ok sampleAuth) (ApiResult.ok ())).2
      = Except.error "Access denied. Admin privileges required." :=
  ⟨by decide,
    (login_nonAdmin_clears_and_denies ctx0 sampleAuth (ApiResult.ok ())
      (by decide)).2.2.2.2⟩

/-- C2 counterexample: with a stored non-admin session, the bootstrap
check adopts the cached non-admin user (after a successful
revalidation) and leaves the stored session intact; nothing is
cleared, contrary to the claim. -/
theorem initAuth_adopts_nonAdmin_counterexample :
    sampleUser.role ≠ "admin" ∧
    AuthService.isAuthenticated nonAdminCtx.client.store = true ∧
    (AuthContext.initAuth nonAdminCtx (ApiResult.ok sampleUser)).user
      = some sampleUser ∧
    (AuthContext.initAuth nonAdminCtx (ApiResult.ok sampleUser)).client.store.token
      = some "tok0" ∧
    (AuthContext.initAuth nonAdminCtx (ApiResult.ok sampleUser)).client.store.refreshToken
      = some "rtok0" := by
  refine ⟨by decide, by decide, ?_, by decide, by decide⟩
  decide

/-- C2 amended: the bootstrap session validation performs no role
check at all. Whenever a session is stored, it adopts whatever user
the revalidation returns, of any role, leaving the stored session in
place; the stored session is cleared only when the revalidation
request fails. Non-admin termination is enforced only by the
login-time check. -/
theorem initAuth_no_role_check
    (st : CtxState) (cu fresh : AdminUser) (e : ApiError)
    (hAuth : AuthService.isAuthenticated st.client.store = true)
    (hGet : AuthService.getUser st.client.store = some cu) :
    (AuthContext.initAuth st (ApiResult.ok fresh)).user = some fresh ∧
    (AuthContext.initAuth st (ApiResult.ok fresh)).client.store
      = AuthService.setUser fresh st.client.store ∧
    (AuthContext.initAuth st (ApiResult.err e)).user = none ∧
    (AuthContext.initAuth st (ApiResult.err e)).client.store
      = { token := none, refreshToken := none, user := none } := by
  simp [AuthContext.initAuth, AuthService.getCurrentUser, runApi,
    AuthService.setUser, AuthService.clearAuth, hAuth, hGet]

/-- Witness for the amended C2: the stored non-admin session is
revalidated as the same non-admin user, which the bootstrap adopts. -/
theorem initAuth_no_role_check_witness :
    AuthService.isAuthenticated nonAdminCtx.client.store = true ∧
    AuthService.getUser nonAdminCtx.client.store = some sampleUser ∧
    (AuthContext.initAuth nonAdminCtx (ApiResult.ok sampleUser)).user
      = some sampleUser :=
  ⟨by decide, by decide,
    (initAuth_no_role_check nonAdminCtx sampleUser sampleUser e500
      (by decide) (by decide)).1⟩

/-- C3: every 401 error response makes the interceptor remove the
stored access token and user record while leaving the refresh token,
and navigate to the login surface, before the error is handed to the
caller; `isAuthenticated()` is false afterwards. -/
theorem interceptor_401_purges_and_redirects
    (st : ClientState) (e : ApiError) (h : e.status = some 401) :
    responseInterceptor st e =
      { store := { token := none, refreshToken := st.store.refreshToken,
                   user := none },
        location := some "/auth/login" } ∧
    @runApi Unit st (ApiResult.err e)
      = (responseInterceptor st e, Except.error e) ∧
    AuthService.isAuthenticated (responseInterceptor st e).store = false := by
  refine ⟨?_, rfl, ?_⟩ <;>
    simp [responseInterceptor, h, AuthService.isAuthenticated,
      AuthService.getToken, AuthService.getUser]

/-- Witness for C3: the seeded session hit by a concrete 401. -/
theorem interceptor_401_purges_and_redirects_witness :
    e401.status = some 401 ∧
    AuthService.isAuthenticated (responseInterceptor seededClient e401).store
      = false :=
  ⟨by decide,
    (interceptor_401_purges_and_redirects seededClient e401 (by decide)).2.2⟩

/-- C4: `refreshToken()` with no stored refresh token, or with a
backend rejection, clears all three stored session parts and raises
the generic failure; no session state survives either failure. -/
theorem refreshToken_failure_purges
    (st : ClientState) (resp : ApiResult String) (e : ApiError) :
    AuthService.refreshToken
        { st with store := { st.store with refreshToken := none } } resp
      = ({ st with
            store := { token := none, refreshToken := none, user := none } },
          Except.error "Token refresh failed") ∧
    (AuthService.refreshToken st (ApiResult.err e)).1.store
      = { token := none, refreshToken := none, user := none } ∧
    (AuthService.refreshToken st (ApiResult.err e)).2
      = Except.error "Token refresh failed" := by
  refine ⟨?_, ?_, ?_⟩
  · simp [AuthService.refreshToken, AuthService.getRefreshToken,
      AuthService.clearAuth]
  · rcases hrt : AuthService.getRefreshToken st.store with _ | rt <;>
      simp [AuthService.refreshToken, hrt, runApi, AuthService.clearAuth]
  · rcases hrt : AuthService.getRefreshToken st.store with _ | rt <;>
      simp [AuthService.refreshToken, hrt, runApi, AuthService.clearAuth]

/-- C5 counterexample: a `getCurrentUser` call failing with a 401 does
mutate the stored access token — the response interceptor removes it —
so the failure case of the claim is false as stated. -/
theorem getCurrentUser_401_mutates_token_counterexample :
    seededClient.store.token = some "tok0" ∧
    (AuthService.getCurrentUser seededClient (ApiResult.err e401)).1.store.token
      = none := by
  exact ⟨by decide, by decide⟩

/-- C5 amended: on success, `getCurrentUser()` and `updateProfile()`
overwrite only the stored user (tokens unchanged); neither ever
mutates the refresh token; on failures other than 401 the whole store
is untouched; on a 401 failure the operations themselves write
nothing, but the global response interceptor removes the access token
and stored user, leaving the refresh token. -/
theorem profileOps_frame
    (st : ClientState) (u : AdminUser) (body : Json) (e1 e2 : ApiError)
    (h1 : e1.status ≠ some 401) (h2 : e2.status = some 401) :
    (AuthService.getCurrentUser st (ApiResult.ok u)).1.store
      = AuthService.setUser u st.store ∧
    (AuthService.updateProfile st body (ApiResult.ok u)).1.store
      = AuthService.setUser u st.store ∧
    (AuthService.getCurrentUser st (ApiResult.ok u)).1.store.token
      = st.store.token ∧
    (AuthService.getCurrentUser st (ApiResult.ok u)).1.store.refreshToken
      = st.store.refreshToken ∧
    (AuthService.updateProfile st body (ApiResult.ok u)).1.store.token
      = st.store.token ∧
    (AuthService.updateProfile st body (ApiResult.ok u)).1.store.refreshToken
      = st.store.refreshToken ∧
    (AuthService.getCurrentUser st (ApiResult.err e1)).1.store = st.store ∧
    (AuthService.updateProfile st body (ApiResult.err e1)).1.store = st.store ∧
    (AuthService.getCurrentUser st (ApiResult.err e2)).1.store
      = { token := none, refreshToken := st.store.refreshToken, user := none } ∧
    (AuthService.updateProfile st body (ApiResult.err e2)).1.store
      = { token := none, refreshToken := st.store.refreshToken, user := none } := by
  simp [AuthService.getCurrentUser, AuthService.updateProfile, runApi,
    responseInterceptor, AuthService.setUser, h1, h2]

/-- Witness for the amended C5: concrete non-401 and 401 failures
against the seeded session. -/
theorem profileOps_frame_witness :
    e500.status ≠ some 401 ∧ e401.status = some 401 ∧
    (AuthService.getCurrentUser seededClient (ApiResult.err e500)).1.store
      = seededClient.store :=
  ⟨by decide, by decide,
    (profileOps_frame seededClient sampleAdmin Json.null e500 e401
      (by decide) (by decide)).2.2.2.2.2.2.1⟩

/-- C6: `logout()` swallows any backend failure — it returns normally
(its result type carries no error channel, matching the source, whose
catch block only logs) — and the local purge of all three session
parts always runs; every other backend-calling Session Manager
operation propagates its backend failure to the caller. -/
theorem logout_swallows_and_others_propagate
    (st : ClientState) (e : ApiError) (body : Json) :
    (AuthService.logout st (ApiResult.err e)).store
      = { token := none, refreshToken := none, user := none } ∧
    (AuthService.logout st (ApiResult.ok ())).store
      = { token := none, refreshToken := none, user := none } ∧
    (AuthService.login st (ApiResult.err e)).2
      = Except.error (e.errMsg.getD "Login failed") ∧
    (AuthService.register st (ApiResult.err e)).2
      = Except.error (e.errMsg.getD "Registration failed") ∧
    (AuthService.forgotPassword st (ApiResult.err e)).2
      = Except.error (e.errMsg.getD "Failed to send reset email") ∧
    (AuthService.resetPassword st (ApiResult.err e)).2
      = Except.error (e.errMsg.getD "Failed to reset password") ∧
    (AuthService.getCurrentUser st (ApiResult.err e)).2
      = Except.error (e.errMsg.getD "Failed to get user profile") ∧
    (AuthService.updateProfile st body (ApiResult.err e)).2
      = Except.error (e.errMsg.getD "Failed to update profile") ∧
    (AuthService.refreshToken st (ApiResult.err e)).2
      = Except.error "Token refresh failed" := by
  refine ⟨?_, ?_, ?_, ?_, ?_, ?_, ?_, ?_, ?_⟩ <;>
    first
      | simp [AuthService.logout, AuthService.login, AuthService.register,
          AuthService.forgotPassword, AuthService.resetPassword,
          AuthService.getCurrentUser, AuthService.updateProfile, runApi,
          AuthService.clearAuth]
      | rcases hrt : AuthService.getRefreshToken st.store with _ | rt <;>
          simp [AuthService.refreshToken, hrt, runApi, AuthService.clearAuth]

/-- C7: for every store and well-formed user record, `setUser` then
`getUser` returns the same record; when the user cell holds content
the JSON parser rejects, `getUser` returns `none` instead of
failing. -/
theorem setUser_getUser_roundtrip_and_corrupt
    (s : Store) (u : AdminUser) (txt : String) :
    AuthService.getUser (AuthService.setUser u s) = some u ∧
    AuthService.getUser { s with user := some (UserCell.corrupt txt) }
      = none := by
  exact ⟨by simp [AuthService.setUser, AuthService.getUser,
      decodeUser_encodeUser],
    by simp [AuthService.getUser]⟩

/-- C8: `clearAuth` is total and idempotent — it maps every store to
the empty store, clearing twice (or logging out twice) equals clearing
once, and it succeeds on stores whose keys are already absent. -/
theorem clearAuth_idempotent_and_total
    (s : Store) (st : ClientState) (r1 r2 : ApiResult Unit) :
    AuthService.clearAuth s
      = { token := none, refreshToken := none, user := none } ∧
    AuthService.clearAuth (AuthService.clearAuth s) = AuthService.clearAuth s ∧
    (AuthService.logout (AuthService.logout st r1) r2).store
      = (AuthService.logout st r1).store ∧
    (AuthService.logout st r1).store
      = { token := none, refreshToken := none, user := none } := by
  refine ⟨rfl, rfl, ?_, ?_⟩ <;> simp [AuthService.logout, AuthService.clearAuth]

/-- C9: `isAdmin()` does not require `isAuthenticated()`: there is a
store with no access token whose stored user has the admin role, on
which `isAdmin` is true while `isAuthenticated` is false; moreover
`isAdmin` is insensitive to the token cell. -/
theorem isAdmin_without_isAuthenticated :
    (∃ s : Store, AuthService.getToken s = none ∧
      AuthService.isAdmin s = true ∧
      AuthService.isAuthenticated s = false) ∧
    ∀ (s : Store) (t : Option String),
      AuthService.isAdmin { s with token := t } = AuthService.isAdmin s := by
  constructor
  · exact ⟨adminOnlyStore, by decide, by decide, by decide⟩
  · intro s t
    simp [AuthService.isAdmin, AuthService.getUser]

/-- C10: the context register handler performs no admin-role check:
any successful registration response is adopted as the current user,
whatever role it carries, with navigation to the protected area —
whereas the login handler rejects the same non-admin response with the
access-denied error. -/
theorem register_no_role_check
    (st : CtxState) (r : AuthResponse) (lg : ApiResult Unit) :
    (AuthContext.register st (ApiResult.ok r)).1.user = some r.data.user ∧
    (AuthContext.register st (ApiResult.ok r)).1.client.location
      = some "/dashboard" ∧
    (AuthContext.register st (ApiResult.ok r)).2 = Except.ok () ∧
    (r.data.user.role ≠ "admin" →
      (AuthContext.login st (ApiResult.ok r) lg).2
        = Except.error "Access denied. Admin privileges required.") := by
  refine ⟨?_, ?_, ?_, fun h => ?_⟩
  · simp [AuthContext.register, AuthService.register, runApi]
  · simp [AuthContext.register, AuthService.register, runApi]
  · simp [AuthContext.register, AuthService.register, runApi]
  · simp [AuthContext.login, AuthService.login, runApi, h]

/-- Witness for C10: the concrete non-admin registration response is
adopted by register but rejected by login. -/
theorem register_no_role_check_witness :
    (AuthContext.register ctx0 (ApiResult.ok sampleAuth)).1.user
      = some sampleUser ∧
    sampleAuth.data.user.role ≠ "admin" ∧
    (AuthContext.login ctx0 (ApiResult.ok sampleAuth) (ApiResult.ok ())).2
      = Except.error "Access denied. Admin privileges required." :=
  ⟨(register_no_role_check ctx0 sampleAuth (ApiResult.ok ())).1, by decide,
    (register_no_role_check ctx0 sampleAuth (ApiResult.ok ())).2.2.2
      (by decide)⟩
